import Mathlib

/-!
Verification development for the `unwarpvr` video filter
(`libavfilter/vf_unwarpvr.c`, plus the historical variant of the same filter
kept alongside it).

The numeric model: the C code computes in single-precision `float`; this
development embeds the same formulas over exact rationals `ℚ`, the standard
idealisation of the real-valued intent.  The single irrational operation,
`sqrtf`, is kept abstract: functions that need it take a parameter
`sqrtA : ℚ → ℚ` standing for the square-root routine, so every theorem
proved for all `sqrtA` covers whatever the floating-point library returns.
C `(int)` casts are truncation toward zero, modelled by `truncC`.  Division
by zero in `float` yields infinities; the one place where that drives
control flow (the bisection stopping test at `low = 0`) is modelled by an
explicit case split reproducing the float behaviour.
-/

namespace UnwarpVR

/-- C: `const int NumSegments = 11;` -/
def NumSegments : ℤ := 11

/-- The cubic Hermite segment formula shared by all branches of
`EvalCatmullRom10Spline`:
`res = (p0*(1+2t) + m0*t)*omt*omt + (p1*(1+2*omt) - m1*omt)*t*t`
with `omt = 1 - t`. -/
def hermiteSeg (p0 m0 p1 m1 t : ℚ) : ℚ :=
  let omt := 1 - t
  (p0 * (1 + 2 * t) + m0 * t) * omt * omt + (p1 * (1 + 2 * omt) - m1 * omt) * t * t

/-- C truncation of a floating value to `int`: toward zero. -/
def truncC (q : ℚ) : ℤ :=
  if q < 0 then ⌈q⌉ else ⌊q⌋

/-- Embedding of `EvalCatmullRom10Spline` (vf_unwarpvr.c lines 388-437):
clamp `floor(scaledVal)` to `[0, NumSegments-1]`, take the local parameter
`t`, and dispatch on the segment index `k` exactly as the C `switch` does.
The coefficient array `K` is modelled as a function `ℕ → ℚ`. -/
def EvalCatmullRom10Spline (K : ℕ → ℚ) (scaledVal : ℚ) : ℚ :=
  let scaledValFloor : ℤ := max 0 (min (NumSegments - 1) ⌊scaledVal⌋)
  let t : ℚ := scaledVal - (scaledValFloor : ℚ)
  let k : ℤ := scaledValFloor
  if k = 0 then
    -- curve starts at 1.0 with gradient K[1]-K[0]
    hermiteSeg 1 (K 1 - K 0) (K 1) ((1/2) * (K 2 - K 0)) t
  else if k = NumSegments - 2 then
    -- last tangent is the slope of the last two points
    hermiteSeg (K 9) ((1/2) * (K 10 - K 9)) (K 10) (K 10 - K 9) t
  else if k = NumSegments - 1 then
    -- beyond the last segment the curve is a straight line
    hermiteSeg (K 10) (K 10 - K 9) (K 10 + (K 10 - K 9)) (K 10 - K 9) t
  else
    hermiteSeg (K k.toNat) ((1/2) * (K (k.toNat + 1) - K (k.toNat - 1)))
      (K (k.toNat + 1)) ((1/2) * (K (k.toNat + 2) - K k.toNat)) t

/-- C enum `DistortionEqnType` (vf_unwarpvr.c lines 440-445). -/
inductive DistortionEqnType where
  | Distortion_Poly4
  | Distortion_RecipPoly4
  | Distortion_CatmullRom10
deriving DecidableEq

export DistortionEqnType (Distortion_Poly4 Distortion_RecipPoly4 Distortion_CatmullRom10)

/-- Embedding of `DistortionFnScaleRadiusSquared` (vf_unwarpvr.c lines
448-470): evaluate the radial curve family at `rsq`, then multiply by the
chromatic term `1 + CA0 + CA1*rsq`. -/
def DistortionFnScaleRadiusSquared (Eqn : DistortionEqnType) (K : ℕ → ℚ)
    (MaxR CA0 CA1 rsq : ℚ) : ℚ :=
  let scale : ℚ :=
    match Eqn with
    | Distortion_Poly4 => K 0 + rsq * (K 1 + rsq * (K 2 + rsq * K 3))
    | Distortion_RecipPoly4 => 1 / (K 0 + rsq * (K 1 + rsq * (K 2 + rsq * K 3)))
    | Distortion_CatmullRom10 =>
        EvalCatmullRom10Spline K (((NumSegments - 1 : ℤ) : ℚ) * rsq / (MaxR * MaxR))
  scale * (1 + CA0 + CA1 * rsq)

/-- One iteration of the binary search body shared by both inverters:
`mid = (low+high)/2`; if `target < g(mid)` shrink from above, else from
below.  `g` is the monotone quantity `scale(mid)^2 * mid`. -/
def bisectStep (g : ℚ → ℚ) (target : ℚ) (s : ℚ × ℚ) : ℚ × ℚ :=
  let mid := (s.1 + s.2) / 2
  if target < g mid then (s.1, mid) else (mid, s.2)

/-- The C loop guard `(high - low) / low > 0.0001 && high > 0.00001` under
float semantics: when `low = 0` and `high > 0` the division yields `+inf`
(guard holds); when `low = 0` and `high` is not positive it yields `NaN`
or `-inf` (guard fails). -/
def bisectCond (s : ℚ × ℚ) : Bool :=
  (if s.1 = 0 then decide (0 < s.2) else decide ((s.2 - s.1) / s.1 > 1 / 10000)) &&
    decide (s.2 > 1 / 100000)

/-- Fuel-indexed unfolding of the C `while` loop: runs `bisectStep` while
`bisectCond` holds, up to `fuel` iterations.  Theorem `bisect_terminates_35`
below shows 35 iterations always suffice from the start state `(0, 10)`, so
`invLoop g t 35 (0, 10)` is the exact final state of the C loop. -/
def invLoop (g : ℚ → ℚ) (target : ℚ) : ℕ → ℚ × ℚ → ℚ × ℚ
  | 0, s => s
  | n + 1, s => if bisectCond s then invLoop g target n (bisectStep g target s) else s

/-- Fuel sufficient for the bisection loop (proved below). -/
def invIterBound : ℕ := 35

/-- `mid_guess_value = scale * scale * mid_guess`: the monotone quantity
evaluated by the loop body of `DistortionFnScaleRadiusSquaredInv`. -/
def midGuessValue (Eqn : DistortionEqnType) (K : ℕ → ℚ) (MaxR CA0 CA1 : ℚ)
    (m : ℚ) : ℚ :=
  let scale := DistortionFnScaleRadiusSquared Eqn K MaxR CA0 CA1 m
  scale * scale * m

/-- Embedding of `DistortionFnScaleRadiusSquaredInv` (vf_unwarpvr.c lines
474-491): binary search for `rsq` with `scale(rsq)^2 * rsq ≈ target`, over
the fixed initial interval `low_guess = 0, high_guess = 10`, returning
`(low_guess + high_guess) / 2`. -/
def DistortionFnScaleRadiusSquaredInv (Eqn : DistortionEqnType) (K : ℕ → ℚ)
    (MaxR CA0 CA1 rsq : ℚ) : ℚ :=
  let s := invLoop (midGuessValue Eqn K MaxR CA0 CA1) rsq invIterBound (0, 10)
  (s.1 + s.2) / 2

/-- Embedding of `EvalCatmullRom10SplineInv` from the historical variant of
the filter (src/unnamed/part_000 lines 558-573): same loop body and guard,
but the initial interval is `low_guess = 0, high_guess = 1.5` and the
result is `low_guess` alone. -/
def EvalCatmullRom10SplineInv (K : ℕ → ℚ) (CA0 CA1 scaledVal : ℚ) : ℚ :=
  (invLoop
    (fun m =>
      let scale := EvalCatmullRom10Spline K (((NumSegments - 1 : ℤ) : ℚ) * m) *
        (1 + CA0 + CA1 * m)
      scale * scale * m)
    scaledVal invIterBound (0, 3/2)).1

/-! ### Profile file model (jansson JSON values) and `read_ovr_profile` -/

/-- JSON values as manipulated through the jansson API in
`read_ovr_profile`. -/
inductive Json where
  | null
  | bool (b : Bool)
  | int (n : ℤ)
  | str (s : String)
  | arr (elems : List Json)
  | obj (fields : List (String × Json))

/-- jansson `json_object_get`: NULL (`none`) when the value is not an
object or the key is absent. -/
def json_object_get : Option Json → String → Option Json
  | some (.obj fields), key => (fields.find? (fun kv => kv.1 = key)).map (fun kv => kv.2)
  | _, _ => none

def json_is_object : Option Json → Bool
  | some (.obj _) => true
  | _ => false

def json_is_array : Option Json → Bool
  | some (.arr _) => true
  | _ => false

/-- jansson `json_is_string` composed with `json_string_value`: returns the
string when the (possibly NULL) value is a string. -/
def json_string_value : Option Json → Option String
  | some (.str s) => some s
  | _ => none

/-- First pass of `read_ovr_profile` (vf_unwarpvr.c lines 183-219): scan
`TaggedData` for entries whose tags name the selected product, and collect
the `DefaultUser` value, erroring on structural violations or on two
matching devices with different default users. -/
def findDefaultUser (selected_product : String) (tagged : List Json) :
    Except String (Option String) :=
  tagged.foldlM
    (fun du elem =>
      if json_is_object (some elem) = false then
        .error "TaggedData element is not object"
      else
        let tags := json_object_get (some elem) "tags"
        let vals := json_object_get (some elem) "vals"
        match tags with
        | some (.arr tagList) =>
          if json_is_object vals = false then .error "vals is not object"
          else
            tagList.foldlM
              (fun du tag =>
                if json_is_object (some tag) = false then
                  .error "tags element is not object"
                else
                  match json_string_value (json_object_get (some tag) "Product") with
                  | some p =>
                    if p = selected_product then
                      match json_string_value (json_object_get vals "DefaultUser") with
                      | some default_user_here =>
                        match du with
                        | none => .ok (some default_user_here)
                        | some u =>
                          if u = default_user_here then .ok du
                          else .error "two matching devices with different default users"
                      | none => .ok du
                    else .ok du
                  | none => .ok du)
              du
        | _ => .error "tags is not array")
    none

/-- Second pass of `read_ovr_profile` (vf_unwarpvr.c lines 225-265): find
the entry matching both the default user and the selected product, and read
its `EyeReliefDial`; a matching profile without that key keeps the current
dial value.  The accumulator is `(dial, found_user_profile)`. -/
def findUserProfile (selected_product default_user : String) (tagged : List Json)
    (dial0 : ℤ) : Except String (ℤ × Bool) :=
  tagged.foldlM
    (fun acc elem =>
      if json_is_object (some elem) = false then
        .error "TaggedData element is not object"
      else
        let tags := json_object_get (some elem) "tags"
        let vals := json_object_get (some elem) "vals"
        match tags with
        | some (.arr tagList) =>
          if json_is_object vals = false then .error "vals is not object"
          else do
            let m ← tagList.foldlM
              (fun (m : Bool × Bool) tag =>
                if json_is_object (some tag) = false then
                  .error "tags element is not object"
                else
                  let mu := m.1 || (json_string_value (json_object_get (some tag) "User")
                    = some default_user)
                  let mp := m.2 || (json_string_value (json_object_get (some tag) "Product")
                    = some selected_product)
                  (.ok (mu, mp) : Except String (Bool × Bool)))
              (false, false)
            if m.1 && m.2 then
              match json_object_get vals "EyeReliefDial" with
              | some (.int n) => .ok (n, true)
              | some _ => .error "EyeReliefDial is not integer"
              | none => .ok (acc.1, true)
            else .ok acc
        | _ => .error "tags is not array")
    (dial0, false)

/-- Embedding of `read_ovr_profile` (vf_unwarpvr.c lines 150-270).  The
profile file is `none` when `json_load_file` fails (file absent or
unreadable); the dial defaults to 3 before parsing, and that default
survives only on paths that return success. -/
def read_ovr_profile (selected_product : String) (file : Option Json) :
    Except String ℤ :=
  let eye_relief_dial : ℤ := 3
  match file with
  | none => .error "Could not find Oculus SDK profile"
  | some root =>
    if json_is_object (some root) = false then .error "root is not object"
    else
      match json_object_get (some root) "TaggedData" with
      | some (.arr tagged) => do
        let du ← findDefaultUser selected_product tagged
        match du with
        | none => .error "could not find default user for selected device"
        | some default_user => do
          let r ← findUserProfile selected_product default_user tagged eye_relief_dial
          if r.2 then .ok r.1
          else .error "could not find user profile for default user for selected device"
      | _ => .error "TaggedData is not array"

/-! ### `init_dict`: option validation at filter initialisation -/

/-- The `valid_devices` / `valid_sdk_versions` tables of `init_dict`
(vf_unwarpvr.c lines 292-296). -/
def validDeviceTable : List (String × List String) :=
  [("RiftDK1", ["0.2.5c", "0.4.2"]), ("RiftDK2", ["0.4.2"])]

/-- Device/SDK-version validation of `init_dict` (vf_unwarpvr.c lines
297-326): unknown device is an error; `"default"` selects the first valid
SDK version for the device; any other value must appear in the device's
list. -/
def deviceSdkCheck (device sdkversion : String) : Except String String :=
  match validDeviceTable.find? (fun p => p.1 = device) with
  | none => .error "unwarpvr: Invalid device specified"
  | some p =>
    let sdkEff := if sdkversion = "default" then p.2.headD "" else sdkversion
    if p.2.contains sdkEff then .ok sdkEff
    else .error "Invalid SDK version specified"

def isErr {ε α : Type _} : Except ε α → Bool
  | .error _ => true
  | .ok _ => false

/-- Embedding of `init_dict` (vf_unwarpvr.c lines 286-383) up to the point
where only external option plumbing remains: device and SDK validation,
the profile read when `eye_relief_dial` is left at its default `-1`
(whose failure is propagated as a fatal error), the `ppd` direction check,
and the size/width-height conflict check.  Returns the effective SDK
version and eye-relief dial. -/
def init_dict (device sdkversion : String) (eye_relief_dial : ℤ) (ppd : ℚ)
    (forward_warp : Bool) (size_str w_expr h_expr : Option String)
    (profile : Option Json) : Except String (String × ℤ) :=
  match deviceSdkCheck device sdkversion with
  | .error e => .error e
  | .ok sdkEff =>
    match
      (if eye_relief_dial = -1 then read_ovr_profile device profile
       else .ok eye_relief_dial) with
    | .error e => .error e
    | .ok dialEff =>
      if ppd ≠ 0 ∧ forward_warp = false then
        .error "ppd parameter only valid when forward_warp=1"
      else if size_str.isSome ∧ (w_expr.isSome ∨ h_expr.isSome) then
        .error "Size and width/height expressions cannot be set at the same time"
      else
        .ok (sdkEff, dialEff)

/-! ### Device parameters and the cache builder of `config_props` -/

/-- The per-device physical and optical constants set up by `config_props`
(vf_unwarpvr.c lines 690-763). -/
structure DeviceParams where
  Eqn : DistortionEqnType
  K : ℕ → ℚ
  MaxR : ℚ
  ChromaticAberration : ℕ → ℚ
  MetersPerTanAngleAtCenter : ℚ
  screenWidthMeters : ℚ
  screenHeightMeters : ℚ
  LensCenterXOffset : ℚ
  DeviceResX : ℕ
  DeviceResY : ℕ

/-- Device table of `config_props` (vf_unwarpvr.c lines 713-763).  Decimal
float literals of the C source are written as exact fractions.  `sqrtA`
models `sqrt` (used only for the `MaxR` of RiftDK1 SDK 0.4.2). -/
def selectDeviceParams (device sdkversion : String) (eye_relief_dial : ℤ)
    (sqrtA : ℚ → ℚ) : Option DeviceParams :=
  if device = "RiftDK1" then
    let screenWidthMeters : ℚ := 14976/100000
    let screenHeightMeters : ℚ := screenWidthMeters / (1280/800)
    if sdkversion = "0.2.5c" then
      some { Eqn := Distortion_Poly4
             K := fun i => [(1 : ℚ), 212/1000, 240/1000, 0].getD i 0
             MaxR := 1
             ChromaticAberration :=
               fun i => [(996/1000 : ℚ) - 1, -(4/1000), 1014/1000 - 1, 0].getD i 0
             MetersPerTanAngleAtCenter := (1/4) * screenWidthMeters
             screenWidthMeters := screenWidthMeters
             screenHeightMeters := screenHeightMeters
             LensCenterXOffset := 15197646600/100000000000
             DeviceResX := 1280
             DeviceResY := 800 }
    else if sdkversion = "0.4.2" then
      some { Eqn := Distortion_CatmullRom10
             K := fun i => [(1 : ℚ), 106505/100000, 114725/100000, 12705/10000,
               148/100, 187/100, 2534/1000, 36/10, 51/10, 74/10, 11].getD i 0
             MaxR := sqrtA (18/10)
             ChromaticAberration := fun i => [-(6/1000 : ℚ), 0, 14/1000, 0].getD i 0
             MetersPerTanAngleAtCenter := 425/10000
             screenWidthMeters := screenWidthMeters
             screenHeightMeters := screenHeightMeters
             LensCenterXOffset := 15197646600/100000000000
             DeviceResX := 1280
             DeviceResY := 800 }
    else none
  else if device = "RiftDK2" then
    let CAMin : ℕ → ℚ := fun i => [-(112/10000 : ℚ), -(15/1000), 187/10000, 15/1000].getD i 0
    let CAMax : ℕ → ℚ := fun i => [-(15/1000 : ℚ), -(2/100), 25/1000, 2/100].getD i 0
    some { Eqn := Distortion_CatmullRom10
           K := fun i => [(1003/1000 : ℚ), 102/100, 1042/1000, 1066/1000, 1094/1000,
             1126/1000, 1162/1000, 1203/1000, 125/100, 131/100, 138/100].getD i 0
           MaxR := 1
           ChromaticAberration :=
             fun i => CAMin i + (eye_relief_dial : ℚ)/10 * (CAMax i - CAMin i)
           MetersPerTanAngleAtCenter := 36/1000
           screenWidthMeters := 12576/100000
           screenHeightMeters := 7074/100000
           LensCenterXOffset := -(986003876/100000000000)
           DeviceResX := 1920
           DeviceResY := 1080 }
  else none

/-- `TanEyeAngleScaleX = 0.25f * screenWidthMeters / MetersPerTanAngleAtCenter`. -/
def TanEyeAngleScaleX (P : DeviceParams) : ℚ :=
  (1/4) * P.screenWidthMeters / P.MetersPerTanAngleAtCenter

/-- `TanEyeAngleScaleY = 0.5f * screenHeightMeters / MetersPerTanAngleAtCenter`. -/
def TanEyeAngleScaleY (P : DeviceParams) : ℚ :=
  (1/2) * P.screenHeightMeters / P.MetersPerTanAngleAtCenter

def DevicePPDInCenterX (P : DeviceParams) : ℚ :=
  P.MetersPerTanAngleAtCenter / P.screenWidthMeters * (P.DeviceResX : ℚ)

def DevicePPDInCenterY (P : DeviceParams) : ℚ :=
  P.MetersPerTanAngleAtCenter / P.screenHeightMeters * (P.DeviceResY : ℚ)

/-- The per-run flags and scale options consumed by the cache builder. -/
structure EyeCfg where
  forward_warp : Bool
  swap_eyes : Bool
  mono_input : Bool
  left_eye_only : Bool
  scale_width : ℚ
  scale_height : ℚ
  scale_in_width : ℚ
  scale_in_height : ℚ
  ppd : ℚ

/-- The `ppd` rescaling of `scale_in_width` (vf_unwarpvr.c lines 768-771). -/
def effScaleInW (P : DeviceParams) (cfg : EyeCfg) : ℚ :=
  if cfg.ppd ≠ 0 then cfg.scale_in_width * (cfg.ppd * (531301/10000)) / DevicePPDInCenterX P
  else cfg.scale_in_width

def effScaleInH (P : DeviceParams) (cfg : EyeCfg) : ℚ :=
  if cfg.ppd ≠ 0 then cfg.scale_in_height * (cfg.ppd * (531301/10000)) / DevicePPDInCenterY P
  else cfg.scale_in_height

/-- The chromatic-aberration pair passed for each channel (vf_unwarpvr.c
lines 814-816 and 852-854): red uses `(CA[0], CA[1])`, green `(0, 0)`,
blue `(CA[2], CA[3])`. -/
def chromaPair (P : DeviceParams) (channel : ℕ) : ℚ × ℚ :=
  if channel = 0 then (P.ChromaticAberration 0, P.ChromaticAberration 1)
  else if channel = 2 then (P.ChromaticAberration 2, P.ChromaticAberration 3)
  else (0, 0)

/-- The reverse (unwarp) path obtains the per-channel source-space squared
radius by calling `DistortionFnScaleRadiusSquaredInv` (vf_unwarpvr.c lines
814-816). -/
def reverseChannelRsq (P : DeviceParams) (channel : ℕ) (rsq : ℚ) : ℚ :=
  DistortionFnScaleRadiusSquaredInv P.Eqn P.K P.MaxR (chromaPair P channel).1
    (chromaPair P channel).2 rsq

/-- The forward-warp path calls `DistortionFnScaleRadiusSquared` directly
(vf_unwarpvr.c lines 852-854). -/
def forwardChannelScale (P : DeviceParams) (channel : ℕ) (rsq : ℚ) : ℚ :=
  DistortionFnScaleRadiusSquared P.Eqn P.K P.MaxR (chromaPair P channel).1
    (chromaPair P channel).2 rsq

def oneEyeMultiplier (cfg : EyeCfg) : ℕ := if cfg.left_eye_only then 2 else 1

/-- `in_width_per_eye = mono_input ? inlink->w : inlink->w / 2`. -/
def inWidthPerEye (cfg : EyeCfg) (inW : ℕ) : ℕ :=
  if cfg.mono_input then inW else inW / 2

/-- `in_eye`: start from the output eye, flip on `swap_eyes`, then force 0
on `mono_input` (vf_unwarpvr.c lines 789-797). -/
def inEye (cfg : EyeCfg) (eye_count : ℕ) : ℕ :=
  if cfg.mono_input then 0
  else if cfg.swap_eyes then 1 - eye_count else eye_count

/-- `lensCenterXOffsetEye` (vf_unwarpvr.c line 798): negate for the second
input eye in reverse mode, for the second output eye in forward mode. -/
def lensCenterXOffsetEye (P : DeviceParams) (cfg : EyeCfg) (eye_count : ℕ) : ℚ :=
  if (cfg.forward_warp = false ∧ inEye cfg eye_count ≠ 0) ∨
     (cfg.forward_warp = true ∧ eye_count ≠ 0) then
    -P.LensCenterXOffset
  else P.LensCenterXOffset

/-- The shared tail of both cache-builder paths (vf_unwarpvr.c lines
831-835 and 870-874): truncate the source coordinates to integers, check
them against the source bounds, and either store
`srci*in_linesize + (in_eye*in_width_per_eye + srcj)*3 + channel` or leave
the sentinel in place (`none`). -/
def storeEntry (inH in_linesize wpe in_eye channel : ℕ) (x y : ℚ) : Option ℤ :=
  let srcj := truncC x
  let srci := truncC y
  if 0 ≤ srci ∧ 0 ≤ srcj ∧ srci < (inH : ℤ) ∧ srcj < (wpe : ℤ) then
    some (srci * (in_linesize : ℤ) + (((in_eye * wpe : ℕ) : ℤ) + srcj) * 3 + (channel : ℤ))
  else none

/-- One cache entry: the computation of `config_props` for destination
pixel `(i, j)` of output eye `eye_count` and channel `channel`
(vf_unwarpvr.c lines 802-836 for the reverse path, 842-875 for the forward
path).  Returns `none` when the bounds check fails (the `-1` sentinel is
left in place), otherwise the stored source byte offset. -/
def cacheEntry (P : DeviceParams) (cfg : EyeCfg) (inW inH in_linesize outW outH : ℕ)
    (sqrtA : ℚ → ℚ) (eye_count i j channel : ℕ) : Option ℤ :=
  let oem := oneEyeMultiplier cfg
  let wpe := inWidthPerEye cfg inW
  let in_eye := inEye cfg eye_count
  let lcxoe := lensCenterXOffsetEye P cfg eye_count
  let siw := effScaleInW P cfg
  let sih := effScaleInH P cfg
  if cfg.forward_warp = false then
    let ndcx_raw := ((-1 + 2 * ((j : ℚ) / ((outW / 2 * oem : ℕ) : ℚ))) * (oem : ℚ)) / cfg.scale_width
    let ndcy_raw := (-1 + 2 * ((i : ℚ) / (outH : ℚ))) / cfg.scale_height
    let ndcx := ndcx_raw * ((outW : ℚ) / (P.DeviceResX : ℚ)) * TanEyeAngleScaleX P
    let ndcy := ndcy_raw * ((outH : ℚ) / (P.DeviceResY : ℚ)) * TanEyeAngleScaleY P
    let rsq := ndcx * ndcx + ndcy * ndcy
    let new_rsq := reverseChannelRsq P channel rsq
    let scale := sqrtA (new_rsq / rsq)
    let ndcx_scaled := ndcx * scale / TanEyeAngleScaleX P
    let ndcy_scaled := ndcy * scale / TanEyeAngleScaleY P
    let x := ((ndcx_scaled + lcxoe) * siw + 1) / 2 * (wpe : ℚ)
    let y := (ndcy_scaled * sih + 1) / 2 * (inH : ℚ)
    storeEntry inH in_linesize wpe in_eye channel x y
  else
    let ndcx := ((-1 + 2 * (j : ℚ) / ((outW / 2 * oem : ℕ) : ℚ)) * (oem : ℚ)) / cfg.scale_width - lcxoe
    let ndcy := (-1 + 2 * (i : ℚ) / (outH : ℚ)) / cfg.scale_height
    let tanx_distorted := ndcx * TanEyeAngleScaleX P
    let tany_distorted := ndcy * TanEyeAngleScaleY P
    let rsq := tanx_distorted * tanx_distorted + tany_distorted * tany_distorted
    let scale := forwardChannelScale P channel rsq
    let tanx := tanx_distorted * scale
    let tany := tany_distorted * scale
    let rt_ndcx := tanx / TanEyeAngleScaleX P
    let rt_ndcy := tany / TanEyeAngleScaleY P
    let x := rt_ndcx * siw / 2 * (P.DeviceResX : ℚ) / 2 + (wpe : ℚ) / 2
    let y := rt_ndcy * sih / 2 * (P.DeviceResY : ℚ) + (inH : ℚ) / 2
    storeEntry inH in_linesize wpe in_eye channel x y

/-- `output_idx = (i*outlink->w + eye_count*outlink->w/2 + j)*NUM_CHANNELS + channel`. -/
def outputIdx (outW eye_count i j channel : ℕ) : ℕ :=
  (i * outW + eye_count * outW / 2 + j) * 3 + channel

/-- Eyes visited by the builder loop: `left_eye_only` breaks out before
eye 1. -/
def eyeList (cfg : EyeCfg) : List ℕ := if cfg.left_eye_only then [0] else [0, 1]

/-- The cache table built by `config_props` (vf_unwarpvr.c lines 777-879):
a fresh `outW*outH*3` array filled with the sentinel `-1`, then overwritten
entry by entry for each eye, destination row, destination column within the
eye's half, and channel. -/
def buildCache (P : DeviceParams) (cfg : EyeCfg) (inW inH in_linesize outW outH : ℕ)
    (sqrtA : ℚ → ℚ) : List ℤ :=
  let jLimit := outW / 2 * oneEyeMultiplier cfg
  (eyeList cfg).foldl
    (fun acc eye_count =>
      (List.range outH).foldl
        (fun acc i =>
          (List.range jLimit).foldl
            (fun acc j =>
              (List.range 3).foldl
                (fun acc channel =>
                  match cacheEntry P cfg inW inH in_linesize outW outH sqrtA eye_count i j channel with
                  | some v => acc.set (outputIdx outW eye_count i j channel) v
                  | none => acc)
                acc)
            acc)
        acc)
    (List.replicate (outW * outH * 3) (-1 : ℤ))

/-- The cache-building tail of `config_props`: device lookup (unknown
device is an error), then the freshly built table. -/
def configPropsCache (device sdkversion : String) (dial : ℤ) (cfg : EyeCfg)
    (inW inH in_linesize outW outH : ℕ) (sqrtA : ℚ → ℚ) : Except String (List ℤ) :=
  match selectDeviceParams device sdkversion dial sqrtA with
  | none => .error "Invalid device specified"
  | some P => .ok (buildCache P cfg inW inH in_linesize outW outH sqrtA)

/-- Filter instance state that `config_props` reads and writes in place:
the `scale_in_width` / `scale_in_height` fields of the context (which the
`ppd` branch multiplies in place, vf_unwarpvr.c lines 768-771) and the
`inv_cache` pointer. -/
structure FilterState where
  scale_in_width : ℚ
  scale_in_height : ℚ
  inv_cache : Option (List ℤ)

/-- The mutable state as initialisation leaves it: the input-scale options
as supplied, no cache yet. -/
def initialState (cfg : EyeCfg) : FilterState :=
  { scale_in_width := cfg.scale_in_width
    scale_in_height := cfg.scale_in_height
    inv_cache := none }

/-- `config_props` as a state transformer over the filter context: select
the device (unknown device errors before any mutation), apply the in-place
`ppd` rescaling of `scale_in_width` / `scale_in_height` (vf_unwarpvr.c
lines 768-771 — the product persists in the context, so it compounds on a
rerun), and replace the cache with a freshly built table computed from the
updated scales (the previous table is discarded, not reused). -/
def config_props (device sdkversion : String) (dial : ℤ) (cfg : EyeCfg)
    (inW inH in_linesize outW outH : ℕ) (sqrtA : ℚ → ℚ) (s : FilterState) :
    Except String FilterState :=
  match selectDeviceParams device sdkversion dial sqrtA with
  | none => .error "Invalid device specified"
  | some P =>
    let cfgRun : EyeCfg :=
      { cfg with scale_in_width := s.scale_in_width, scale_in_height := s.scale_in_height }
    .ok { scale_in_width := effScaleInW P cfgRun
          scale_in_height := effScaleInH P cfgRun
          inv_cache := some (buildCache P cfgRun inW inH in_linesize outW outH sqrtA) }

/-- The cache table held by a `config_props` result (empty on error or
before any build). -/
def stateCache (r : Except String FilterState) : List ℤ :=
  match r with
  | .ok s => s.inv_cache.getD []
  | .error _ => []

/-- Initialisation followed by cache building: `init_dict` runs first and
its error aborts everything before any cache work. -/
def initAndBuildCache (device sdkversion : String) (eye_relief_dial : ℤ) (cfg : EyeCfg)
    (size_str w_expr h_expr : Option String) (profile : Option Json)
    (inW inH in_linesize outW outH : ℕ) (sqrtA : ℚ → ℚ) : Except String (List ℤ) :=
  match init_dict device sdkversion eye_relief_dial cfg.ppd cfg.forward_warp
    size_str w_expr h_expr profile with
  | .error e => .error e
  | .ok r => configPropsCache device r.1 r.2 cfg inW inH in_linesize outW outH sqrtA

/-- Embedding of `filter_frame` (vf_unwarpvr.c lines 892-925): the output
buffer position `i*out_linesize + jj` for `jj < outW*3` receives 0 for a
sentinel cache entry and the source byte at the cached offset otherwise;
the walking destination pointer skips `end_of_line_size` padding bytes per
row (`none` marks the padding bytes, which the loop never writes). -/
def filter_frame (cache : List ℤ) (src : List ℕ) (outW outH out_linesize : ℕ) :
    List (Option ℕ) :=
  (List.range (outH * out_linesize)).map fun p =>
    let i := p / out_linesize
    let jj := p % out_linesize
    if jj < outW * 3 then
      let e := cache.getD (i * (outW * 3) + jj) (-1)
      some (if e = -1 then 0 else src.getD e.toNat 0)
    else none

/-! ### Bisection loop lemmas -/

section Bisect

variable (g : ℚ → ℚ) (t : ℚ)

theorem invLoop_stuck {s : ℚ × ℚ} (h : bisectCond s = false) :
    ∀ n, invLoop g t n s = s := by
  intro n
  cases n with
  | zero => rfl
  | succ n => simp [invLoop, h]

theorem invLoop_add_fuel : ∀ (n m : ℕ) (s : ℚ × ℚ),
    invLoop g t (n + m) s = invLoop g t m (invLoop g t n s) := by
  intro n
  induction n with
  | zero => intro m s; rw [Nat.zero_add]; rfl
  | succ n ih =>
    intro m s
    rw [Nat.succ_add]
    by_cases hc : bisectCond s = true
    · rw [invLoop, if_pos hc, invLoop, if_pos hc]
      exact ih m (bisectStep g t s)
    · have hcf : bisectCond s = false := by
        revert hc; cases bisectCond s <;> simp
      rw [invLoop, if_neg hc, invLoop, if_neg hc, invLoop_stuck g t hcf]

theorem bisectStep_halves (s : ℚ × ℚ) :
    (bisectStep g t s).2 - (bisectStep g t s).1 = (s.2 - s.1) / 2 := by
  simp only [bisectStep]
  split_ifs <;> simp <;> ring

theorem bisectStep_bounds {s : ℚ × ℚ} (h : s.1 ≤ s.2) :
    s.1 ≤ (bisectStep g t s).1 ∧ (bisectStep g t s).1 ≤ (bisectStep g t s).2 ∧
      (bisectStep g t s).2 ≤ s.2 := by
  simp only [bisectStep]
  split_ifs <;> refine ⟨?_, ?_, ?_⟩ <;> simp <;> linarith

theorem invLoop_bounds : ∀ (n : ℕ) (s : ℚ × ℚ), s.1 ≤ s.2 →
    s.1 ≤ (invLoop g t n s).1 ∧ (invLoop g t n s).1 ≤ (invLoop g t n s).2 ∧
      (invLoop g t n s).2 ≤ s.2 := by
  intro n
  induction n with
  | zero => intro s h; exact ⟨le_refl _, h, le_refl _⟩
  | succ n ih =>
    intro s h
    rw [invLoop]
    split
    · obtain ⟨h1, h2, h3⟩ := bisectStep_bounds g t h
      obtain ⟨h4, h5, h6⟩ := ih (bisectStep g t s) h2
      exact ⟨le_trans h1 h4, h5, le_trans h6 h3⟩
    · exact ⟨le_refl _, h, le_refl _⟩

theorem bisectCond_false_left {l h : ℚ} (hne : l ≠ 0)
    (hr : ¬((h - l) / l > 1 / 10000)) : bisectCond (l, h) = false := by
  unfold bisectCond
  rw [if_neg hne, decide_eq_false hr, Bool.false_and]

theorem bisectCond_false_right {l h : ℚ} (hr : ¬(h > 1 / 100000)) :
    bisectCond (l, h) = false := by
  unfold bisectCond
  rw [decide_eq_false hr, Bool.and_false]

theorem bisectCond_false_of_ratio {l h : ℚ} (hl : 0 < l) (hw : h - l ≤ l / 10000) :
    bisectCond (l, h) = false := by
  refine bisectCond_false_left (ne_of_gt hl) ?_
  rw [not_lt, div_le_div_iff₀ hl (by norm_num)]
  linarith

theorem bisect_posDone : ∀ (j : ℕ) (l h : ℚ), 0 < l → l ≤ h →
    h - l ≤ l * 2 ^ j / 10000 → bisectCond (invLoop g t j (l, h)) = false := by
  intro j
  induction j with
  | zero =>
    intro l h hl _ hw
    exact bisectCond_false_of_ratio hl (by simpa using hw)
  | succ j ih =>
    intro l h hl hlh hw
    by_cases hc : bisectCond (l, h) = true
    · rw [invLoop, if_pos hc]
      simp only [bisectStep]
      have hmid_lo : l ≤ (l + h) / 2 := by linarith
      have hmid_hi : (l + h) / 2 ≤ h := by linarith
      have hpow : (0 : ℚ) < 2 ^ j := by positivity
      split
      · refine ih l ((l + h) / 2) hl hmid_lo ?_
        have heq : (l + h) / 2 - l = (h - l) / 2 := by ring
        rw [heq]
        calc (h - l) / 2 ≤ l * 2 ^ (j + 1) / 10000 / 2 := by linarith
          _ = l * 2 ^ j / 10000 := by ring
      · refine ih ((l + h) / 2) h (lt_of_lt_of_le hl hmid_lo) hmid_hi ?_
        have heq : h - (l + h) / 2 = (h - l) / 2 := by ring
        rw [heq]
        calc (h - l) / 2 ≤ l * 2 ^ (j + 1) / 10000 / 2 := by linarith
          _ = l * 2 ^ j / 10000 := by ring
          _ ≤ (l + h) / 2 * 2 ^ j / 10000 := by
              have := mul_le_mul_of_nonneg_right hmid_lo (le_of_lt hpow)
              linarith
    · have hcf : bisectCond (l, h) = false := by
        revert hc; cases bisectCond (l, h) <;> simp
      rw [invLoop_stuck g t hcf]
      exact hcf

theorem bisect_zeroDone : ∀ (i : ℕ) (h : ℚ), 0 < h → h ≤ 2 ^ i / 100000 →
    bisectCond (invLoop g t (i + 15) (0, h)) = false := by
  intro i
  induction i with
  | zero =>
    intro h _ hle
    have hc : bisectCond (0, h) = false := by
      refine bisectCond_false_right ?_
      rw [not_lt]
      simpa using hle
    rw [invLoop_stuck g t hc]
    exact hc
  | succ i ih =>
    intro h hpos hle
    by_cases hc : bisectCond (0, h) = true
    · have hstep : (i + 1 + 15) = (i + 15) + 1 := by omega
      rw [hstep, invLoop, if_pos hc]
      simp only [bisectStep]
      split
      · simp only [zero_add]
        refine ih (h / 2) (by linarith) ?_
        rw [pow_succ] at hle
        linarith
      · simp only [zero_add]
        have hdone : bisectCond (invLoop g t 14 (h / 2, h)) = false := by
          refine bisect_posDone g t 14 (h / 2) h (by linarith) (by linarith) ?_
          have heq : h - h / 2 = h / 2 := by ring
          rw [heq]
          nlinarith
        have hsplit : i + 15 = 14 + (i + 1) := by omega
        rw [hsplit, invLoop_add_fuel g t 14 (i + 1), invLoop_stuck g t hdone]
        exact hdone
    · have hcf : bisectCond (0, h) = false := by
        revert hc; cases bisectCond (0, h) <;> simp
      rw [invLoop_stuck g t hcf]
      exact hcf

/-- The bisection loop from the initial state `(0, 10)` has exited within
35 iterations, no matter what monotone quantity it evaluates. -/
theorem bisect_done_35 : bisectCond (invLoop g t 35 (0, 10)) = false := by
  have h := bisect_zeroDone g t 20 10 (by norm_num) (by norm_num)
  simpa using h

end Bisect

/-! ### Concrete device-parameter instances used by the witnesses and
counterexamples -/

/-- The RiftDK1 / SDK 0.2.5c parameter set built by `config_props`
(vf_unwarpvr.c lines 713-727): Poly4 distortion. -/
def devRiftDK1_025c : DeviceParams :=
  { Eqn := Distortion_Poly4
    K := fun i => [(1 : ℚ), 212/1000, 240/1000, 0].getD i 0
    MaxR := 1
    ChromaticAberration := fun i => [(996/1000 : ℚ) - 1, -(4/1000), 1014/1000 - 1, 0].getD i 0
    MetersPerTanAngleAtCenter := (1/4) * (14976/100000)
    screenWidthMeters := 14976/100000
    screenHeightMeters := (14976/100000) / (1280/800)
    LensCenterXOffset := 15197646600/100000000000
    DeviceResX := 1280
    DeviceResY := 800 }

theorem selectDeviceParams_dk1_025c (dial : ℤ) (sqrtA : ℚ → ℚ) :
    selectDeviceParams "RiftDK1" "0.2.5c" dial sqrtA = some devRiftDK1_025c := rfl

/-- A forward-warp, mono-input test configuration. -/
def cfgMonoFwd : EyeCfg :=
  { forward_warp := true
    swap_eyes := false
    mono_input := true
    left_eye_only := false
    scale_width := 1
    scale_height := 1
    scale_in_width := 1/320
    scale_in_height := 1/400
    ppd := 0 }

/-- The same configuration with a stereo (non-mono) input. -/
def cfgStereoFwd : EyeCfg := { cfgMonoFwd with mono_input := false }

/-! ### C10: the bisection inverter terminates within a bounded number of
iterations -/

/-- C10: for every parameter set and every target value, the bisection
inverter of `DistortionFnScaleRadiusSquaredInv` halves its interval each
iteration starting from `[0, 10]`, and the loop guard (relative width above
`1e-4` and `high` above the `1e-5` floor) has failed after at most 35
iterations, so further fuel never changes the state; the function returns
the midpoint of the final interval. -/
theorem C10_bisection_bounded (Eqn : DistortionEqnType) (K : ℕ → ℚ)
    (MaxR CA0 CA1 rsq : ℚ) :
    (∀ s : ℚ × ℚ,
      (bisectStep (midGuessValue Eqn K MaxR CA0 CA1) rsq s).2 -
        (bisectStep (midGuessValue Eqn K MaxR CA0 CA1) rsq s).1 = (s.2 - s.1) / 2) ∧
    bisectCond (invLoop (midGuessValue Eqn K MaxR CA0 CA1) rsq 35 (0, 10)) = false ∧
    (∀ m, invLoop (midGuessValue Eqn K MaxR CA0 CA1) rsq (35 + m) (0, 10) =
      invLoop (midGuessValue Eqn K MaxR CA0 CA1) rsq 35 (0, 10)) ∧
    DistortionFnScaleRadiusSquaredInv Eqn K MaxR CA0 CA1 rsq =
      ((invLoop (midGuessValue Eqn K MaxR CA0 CA1) rsq 35 (0, 10)).1 +
        (invLoop (midGuessValue Eqn K MaxR CA0 CA1) rsq 35 (0, 10)).2) / 2 := by
  refine ⟨bisectStep_halves _ _, bisect_done_35 _ _, ?_, rfl⟩
  intro m
  rw [invLoop_add_fuel, invLoop_stuck _ _ (bisect_done_35 _ _)]

/-! ### C2: the inverter's search interval and its use per direction -/

/-- C2 counterexample: in the unwarp (reverse) path of the current filter,
the per-channel inversion (here: RiftDK1 SDK 0.2.5c, green channel, target
squared radius 9) returns a value strictly greater than 3/2, which is
impossible for a bisection confined to `[0, 1.5]`; the reverse-path
inverter therefore does not use the small 1.5 bound the claim assigns to
the unwarp case. -/
theorem C2_cx : (3/2 : ℚ) < reverseChannelRsq devRiftDK1_025c 1 9 := by
  norm_num [reverseChannelRsq, chromaPair, devRiftDK1_025c,
    DistortionFnScaleRadiusSquaredInv, midGuessValue, invIterBound, invLoop,
    bisectStep, bisectCond, DistortionFnScaleRadiusSquared]

/-- C2 (amended): `DistortionFnScaleRadiusSquaredInv` always bisects over
the fixed interval `[0, 10]` — its result lies in `[0, 10]` for every
parameter set and every direction of use; the reverse path calls this
inverter per channel while the forward path calls the forward scale
function `DistortionFnScaleRadiusSquared` directly; only the historical
variant's spline inverter (`EvalCatmullRom10SplineInv`) bisects over the
small interval `[0, 1.5]`, returning its lower bound. -/
theorem C2_amended (Eqn : DistortionEqnType) (K : ℕ → ℚ) (MaxR CA0 CA1 rsq : ℚ) :
    (0 ≤ DistortionFnScaleRadiusSquaredInv Eqn K MaxR CA0 CA1 rsq ∧
      DistortionFnScaleRadiusSquaredInv Eqn K MaxR CA0 CA1 rsq ≤ 10) ∧
    (∀ (P : DeviceParams) (channel : ℕ) (r2 : ℚ), reverseChannelRsq P channel r2 =
      DistortionFnScaleRadiusSquaredInv P.Eqn P.K P.MaxR (chromaPair P channel).1
        (chromaPair P channel).2 r2) ∧
    (∀ (P : DeviceParams) (channel : ℕ) (r2 : ℚ), forwardChannelScale P channel r2 =
      DistortionFnScaleRadiusSquared P.Eqn P.K P.MaxR (chromaPair P channel).1
        (chromaPair P channel).2 r2) ∧
    (0 ≤ EvalCatmullRom10SplineInv K CA0 CA1 rsq ∧
      EvalCatmullRom10SplineInv K CA0 CA1 rsq ≤ 3/2) := by
  refine ⟨?_, fun _ _ _ => rfl, fun _ _ _ => rfl, ?_⟩
  · obtain ⟨h1, h2, h3⟩ := invLoop_bounds (midGuessValue Eqn K MaxR CA0 CA1) rsq
      invIterBound ((0 : ℚ), (10 : ℚ)) (by norm_num)
    dsimp only at h1 h3
    unfold DistortionFnScaleRadiusSquaredInv
    dsimp only
    constructor <;> linarith
  · obtain ⟨h1, h2, h3⟩ := invLoop_bounds
      (fun m =>
        let scale := EvalCatmullRom10Spline K (((NumSegments - 1 : ℤ) : ℚ) * m) *
          (1 + CA0 + CA1 * m)
        scale * scale * m)
      rsq invIterBound ((0 : ℚ), (3/2 : ℚ)) (by norm_num)
    dsimp only at h1 h3
    unfold EvalCatmullRom10SplineInv
    dsimp only
    constructor <;> linarith

/-! ### C3: the distortion scale at `rsq = 0` -/

/-- C3 counterexample: for the RecipPoly4 family with `K0 = 2` and zero
chromatic coefficients, the scale at `rsq = 0` is `1/2`, not the claimed
center value `K0 * (1 + chromaticA) = 2`. -/
theorem C3_cx :
    DistortionFnScaleRadiusSquared Distortion_RecipPoly4
      (fun i => if i = 0 then 2 else 0) 1 0 0 0 ≠
    (fun i => if i = 0 then (2 : ℚ) else 0) 0 * (1 + 0) := by
  norm_num [DistortionFnScaleRadiusSquared]

/-- C3 (amended): at `rsq = 0` the scale is the curve's center value — `K0`
for Poly4, `1` for CatmullRom10, and `1/K0` (not `K0`) for RecipPoly4 —
multiplied only by the constant chromatic term `1 + chromaticA`; the
radius-dependent term `chromaticB` contributes nothing. -/
theorem C3_amended (K : ℕ → ℚ) (MaxR CA0 CA1 : ℚ) :
    DistortionFnScaleRadiusSquared Distortion_Poly4 K MaxR CA0 CA1 0 =
      K 0 * (1 + CA0) ∧
    DistortionFnScaleRadiusSquared Distortion_CatmullRom10 K MaxR CA0 CA1 0 =
      1 * (1 + CA0) ∧
    DistortionFnScaleRadiusSquared Distortion_RecipPoly4 K MaxR CA0 CA1 0 =
      (1 / K 0) * (1 + CA0) := by
  refine ⟨?_, ?_, ?_⟩
  · unfold DistortionFnScaleRadiusSquared
    ring
  · unfold DistortionFnScaleRadiusSquared
    have hz : ((NumSegments - 1 : ℤ) : ℚ) * 0 / (MaxR * MaxR) = 0 := by
      rw [mul_zero, zero_div]
    rw [hz]
    have h1 : EvalCatmullRom10Spline K 0 = 1 := by
      unfold EvalCatmullRom10Spline NumSegments
      norm_num [hermiteSeg]
    rw [h1]
    ring
  · unfold DistortionFnScaleRadiusSquared
    ring

/-! ### C7: structure of the CatmullRom10 evaluation -/

/-- The CatmullRom10 evaluation exactly as the claim describes it: segment
index `k = clamp(floor(scaledR), 0, 9)` with local parameter `t`; segment 0
uses the implicit control point `1.0` with tangent `K1 - K0`; the last
interior segment uses a one-sided end tangent; interior tangents are
central differences `0.5 * (K[k+1] - K[k-1])` (so the last interior
segment's start tangent is the central difference `0.5 * (K[10] - K[8])`);
beyond the final knot the curve is a straight line with the last segment's
slope. -/
def evalCatmullRomClaimC7 (K : ℕ → ℚ) (r : ℚ) : ℚ :=
  if r < 10 then
    let k : ℤ := max 0 (min 9 ⌊r⌋)
    let t : ℚ := r - (k : ℚ)
    if k = 0 then hermiteSeg 1 (K 1 - K 0) (K 1) ((1/2) * (K 2 - K 0)) t
    else if k = 9 then hermiteSeg (K 9) ((1/2) * (K 10 - K 8)) (K 10) (K 10 - K 9) t
    else hermiteSeg (K k.toNat) ((1/2) * (K (k.toNat + 1) - K (k.toNat - 1)))
      (K (k.toNat + 1)) ((1/2) * (K (k.toNat + 2) - K k.toNat)) t
  else K 10 + (K 10 - K 9) * (r - 10)

/-- The claim amended at the single point the code forces: the last
interior segment's start tangent is `0.5 * (K[10] - K[9])` (half the
one-sided difference of the last two knots), not the central difference. -/
def evalCatmullRomAmendedC7 (K : ℕ → ℚ) (r : ℚ) : ℚ :=
  if r < 10 then
    let k : ℤ := max 0 (min 9 ⌊r⌋)
    let t : ℚ := r - (k : ℚ)
    if k = 0 then hermiteSeg 1 (K 1 - K 0) (K 1) ((1/2) * (K 2 - K 0)) t
    else if k = 9 then hermiteSeg (K 9) ((1/2) * (K 10 - K 9)) (K 10) (K 10 - K 9) t
    else hermiteSeg (K k.toNat) ((1/2) * (K (k.toNat + 1) - K (k.toNat - 1)))
      (K (k.toNat + 1)) ((1/2) * (K (k.toNat + 2) - K k.toNat)) t
  else K 10 + (K 10 - K 9) * (r - 10)

/-- C7 counterexample: with knots `K8 = 0, K9 = K10 = 1` and evaluation
point `scaledR = 9.5` (inside the last interior segment), the code's
evaluation disagrees with the claim's description, because the code's start
tangent for that segment is `0.5 * (K10 - K9) = 0` while the claim's
central difference is `0.5 * (K10 - K8) = 1/2`. -/
theorem C7_cx :
    EvalCatmullRom10Spline (fun i => if 9 ≤ i then 1 else 0) (19/2) ≠
      evalCatmullRomClaimC7 (fun i => if 9 ≤ i then 1 else 0) (19/2) := by
  have h9 : ⌊(19/2 : ℚ)⌋ = 9 := by
    rw [Int.floor_eq_iff]
    norm_num
  norm_num [EvalCatmullRom10Spline, evalCatmullRomClaimC7, NumSegments, h9, hermiteSeg]

/-- C7 (amended): the code's CatmullRom10 evaluation coincides everywhere
with the claim's description once the last interior segment's start tangent
is corrected to `0.5 * (K[10] - K[9])`: segment index `clamp(floor, 0, 9)`
with local parameter `t`, segment 0 with implicit control point 1.0 and
tangent `K1 - K0`, one-sided end tangent on the last interior segment,
central differences elsewhere, and straight-line extrapolation with the
last segment's slope beyond the final knot. -/
theorem C7_amended (K : ℕ → ℚ) (r : ℚ) :
    EvalCatmullRom10Spline K r = evalCatmullRomAmendedC7 K r := by
  rcases lt_or_le r 10 with hr | hr
  · have hfl : ⌊r⌋ < 10 := Int.floor_lt.mpr (by exact_mod_cast hr)
    unfold EvalCatmullRom10Spline evalCatmullRomAmendedC7 NumSegments
    rw [if_pos hr]
    have e1 : ((11 : ℤ) - 1) = 10 := by norm_num
    have e2 : ((11 : ℤ) - 2) = 9 := by norm_num
    rw [e1, e2]
    have h1 : min (10 : ℤ) ⌊r⌋ = ⌊r⌋ := min_eq_right (by omega)
    have h2 : min (9 : ℤ) ⌊r⌋ = min (10 : ℤ) ⌊r⌋ := by rw [h1]; exact min_eq_right (by omega)
    rw [h2, h1]
    have hk : max 0 ⌊r⌋ ≤ 9 := max_le (by norm_num) (by omega)
    dsimp only
    split_ifs with c0 c9 c10
    · rfl
    · rfl
    · rw [c10] at hk; exact absurd hk (by norm_num)
    · rfl
  · have hfl : (10 : ℤ) ≤ ⌊r⌋ := Int.le_floor.mpr (by exact_mod_cast hr)
    unfold EvalCatmullRom10Spline evalCatmullRomAmendedC7 NumSegments
    rw [if_neg (not_lt.mpr hr)]
    have e1 : ((11 : ℤ) - 1) = 10 := by norm_num
    have e2 : ((11 : ℤ) - 2) = 9 := by norm_num
    rw [e1, e2]
    have h1 : min (10 : ℤ) ⌊r⌋ = 10 := min_eq_left hfl
    rw [h1]
    have h2 : max (0 : ℤ) 10 = 10 := by norm_num
    rw [h2]
    dsimp only
    rw [if_neg (by norm_num), if_neg (by norm_num), if_pos rfl]
    unfold hermiteSeg
    push_cast
    ring

/-! ### C1: behaviour of initialisation when the profile lookup fails -/

/-- A profile database containing a tagged-data entry that names the
RiftDK2 product and a default user, whose matching user profile has no
`EyeReliefDial` key. -/
def profileNoDial : Json :=
  .obj [("TaggedData", .arr [ .obj [
    ("tags", .arr [ .obj [("Product", .str "RiftDK2")], .obj [("User", .str "u")] ]),
    ("vals", .obj [("DefaultUser", .str "u")]) ] ])]

/-- C1 counterexample: with the eye-relief dial left at its default `-1`
and the profile file absent, initialisation returns an error (the profile
failure is fatal), contradicting the claim that it recovers and returns
success. -/
theorem C1_cx :
    isErr (init_dict "RiftDK2" "default" (-1) 0 false none none none none) = true := by
  rfl

/-- C1 (amended): when the eye-relief dial is left at its default `-1` and
the device-profile lookup fails (file absent or unreadable — and likewise
any parse error inside `read_ovr_profile`), `init_dict` propagates the
error and initialisation fails; the local fallback to the default
eye-relief value 3 happens only when a matching user profile is found but
simply lacks the `EyeReliefDial` entry, in which case initialisation
succeeds with dial 3. -/
theorem C1_amended :
    (∀ (device sdkversion : String) (ppd : ℚ) (fwd : Bool),
      isErr (init_dict device sdkversion (-1) ppd fwd none none none none) = true) ∧
    read_ovr_profile "RiftDK2" (some profileNoDial) = .ok 3 ∧
    init_dict "RiftDK2" "default" (-1) 0 false none none none (some profileNoDial) =
      .ok ("0.4.2", 3) := by
  refine ⟨?_, rfl, rfl⟩
  intro device sdkversion ppd fwd
  unfold init_dict
  cases deviceSdkCheck device sdkversion with
  | error e => rfl
  | ok sdkEff => rfl

/-! ### C8: the forward-only `ppd` option is rejected at initialisation -/

/-- C8: supplying a nonzero `ppd` while `forward_warp` is off makes
initialisation fail with an error, and the combined
initialise-then-build-cache pipeline fails with that same initialisation
error — no cache is built, whatever the device, profile, and geometry. -/
theorem C8_ppd_rejected (device sdkversion : String) (eye_relief_dial : ℤ)
    (cfg : EyeCfg) (size_str w_expr h_expr : Option String) (profile : Option Json)
    (inW inH in_linesize outW outH : ℕ) (sqrtA : ℚ → ℚ)
    (hppd : cfg.ppd ≠ 0) (hfwd : cfg.forward_warp = false) :
    ∃ e : String,
      init_dict device sdkversion eye_relief_dial cfg.ppd cfg.forward_warp
        size_str w_expr h_expr profile = .error e ∧
      initAndBuildCache device sdkversion eye_relief_dial cfg
        size_str w_expr h_expr profile inW inH in_linesize outW outH sqrtA = .error e := by
  have hinit : ∃ e : String,
      init_dict device sdkversion eye_relief_dial cfg.ppd cfg.forward_warp
        size_str w_expr h_expr profile = .error e := by
    unfold init_dict
    cases deviceSdkCheck device sdkversion with
    | error e => exact ⟨e, rfl⟩
    | ok sdkEff =>
      cases hrd : (if eye_relief_dial = -1 then read_ovr_profile device profile
        else .ok eye_relief_dial) with
      | error e => exact ⟨e, rfl⟩
      | ok dialEff =>
        exact ⟨"ppd parameter only valid when forward_warp=1", if_pos ⟨hppd, hfwd⟩⟩
  obtain ⟨e, he⟩ := hinit
  refine ⟨e, he, ?_⟩
  unfold initAndBuildCache
  rw [he]

/-! ### C6: rebuilding the cache from an identical configuration -/

/-- A forward-warp stereo configuration with a nonzero `ppd`, chosen so
that the first build's effective input scales are `1/320` and `1/400` and
every computed source coordinate stays nonnegative in both the first and
the second build. -/
def cfgPpdFwd : EyeCfg :=
  { forward_warp := true
    swap_eyes := false
    mono_input := false
    left_eye_only := false
    scale_width := 3/2
    scale_height := 3/2
    scale_in_width := 1
    scale_in_height := 4/5
    ppd := 10000/531301 }

set_option maxHeartbeats 4000000 in
/-- C6 counterexample: with `ppd ≠ 0`, `config_props` multiplies the
context's `scale_in_width` / `scale_in_height` in place, so running the
cache build twice from an identical user configuration (RiftDK1 SDK 0.2.5c,
forward warp, input 8x4 stride 24, output 2x2) yields a different table
than running it once: entry 0 of the first table is 0, of the second 27
(the compounded scale moves the stored source pixel from row 0 column 0 to
row 1 column 1). -/
theorem C6_cx :
    stateCache ((config_props "RiftDK1" "0.2.5c" 3 cfgPpdFwd 8 4 24 2 2 (fun _ => 0)
        (initialState cfgPpdFwd)).bind
      (config_props "RiftDK1" "0.2.5c" 3 cfgPpdFwd 8 4 24 2 2 (fun _ => 0))) ≠
    stateCache (config_props "RiftDK1" "0.2.5c" 3 cfgPpdFwd 8 4 24 2 2 (fun _ => 0)
        (initialState cfgPpdFwd)) := by
  have h1 : (stateCache (config_props "RiftDK1" "0.2.5c" 3 cfgPpdFwd 8 4 24 2 2
      (fun _ => 0) (initialState cfgPpdFwd))).getD 0 (-1) = 0 := by
    norm_num [config_props, selectDeviceParams_dk1_025c, stateCache, initialState,
      cfgPpdFwd, buildCache, eyeList, oneEyeMultiplier, outputIdx, cacheEntry,
      storeEntry, inWidthPerEye, inEye, lensCenterXOffsetEye, effScaleInW, effScaleInH,
      TanEyeAngleScaleX, TanEyeAngleScaleY, DevicePPDInCenterX, DevicePPDInCenterY,
      forwardChannelScale, chromaPair, DistortionFnScaleRadiusSquared, truncC,
      devRiftDK1_025c, List.range_succ]
  have h2 : (stateCache ((config_props "RiftDK1" "0.2.5c" 3 cfgPpdFwd 8 4 24 2 2
      (fun _ => 0) (initialState cfgPpdFwd)).bind
        (config_props "RiftDK1" "0.2.5c" 3 cfgPpdFwd 8 4 24 2 2 (fun _ => 0)))).getD
      0 (-1) = 27 := by
    norm_num [config_props, selectDeviceParams_dk1_025c, stateCache, initialState,
      cfgPpdFwd, buildCache, eyeList, oneEyeMultiplier, outputIdx, cacheEntry,
      storeEntry, inWidthPerEye, inEye, lensCenterXOffsetEye, effScaleInW, effScaleInH,
      TanEyeAngleScaleX, TanEyeAngleScaleY, DevicePPDInCenterX, DevicePPDInCenterY,
      forwardChannelScale, chromaPair, DistortionFnScaleRadiusSquared, truncC,
      devRiftDK1_025c, List.range_succ, Except.bind]
  intro h
  rw [h, h1] at h2
  exact absurd h2 (by norm_num)

/-- C6 (amended): the cache builder never reads the previous table, and
when `ppd = 0` (its default) `config_props` is idempotent — rerunning it
from its own result returns the identical state and table, and the result
is independent of whatever cache the state held.  (With `ppd ≠ 0` the
in-place rescaling of `scale_in_width` / `scale_in_height` compounds on a
rerun, so idempotence fails; see the counterexample.) -/
theorem C6_amended (device sdkversion : String) (dial : ℤ) (cfg : EyeCfg)
    (inW inH in_linesize outW outH : ℕ) (sqrtA : ℚ → ℚ) (s : FilterState)
    (c : Option (List ℤ)) (hppd : cfg.ppd = 0) :
    (config_props device sdkversion dial cfg inW inH in_linesize outW outH sqrtA s).bind
        (config_props device sdkversion dial cfg inW inH in_linesize outW outH sqrtA) =
      config_props device sdkversion dial cfg inW inH in_linesize outW outH sqrtA s ∧
    config_props device sdkversion dial cfg inW inH in_linesize outW outH sqrtA
        { s with inv_cache := c } =
      config_props device sdkversion dial cfg inW inH in_linesize outW outH sqrtA s := by
  cases hsel : selectDeviceParams device sdkversion dial sqrtA with
  | none =>
    constructor
    · unfold config_props
      rw [hsel]
      rfl
    · unfold config_props
      rw [hsel]
  | some P =>
    have hw : ∀ s2 : FilterState,
        effScaleInW P { cfg with scale_in_width := s2.scale_in_width, scale_in_height := s2.scale_in_height } = s2.scale_in_width := by
      intro s2
      simp [effScaleInW, hppd]
    have hh : ∀ s2 : FilterState,
        effScaleInH P { cfg with scale_in_width := s2.scale_in_width, scale_in_height := s2.scale_in_height } = s2.scale_in_height := by
      intro s2
      simp [effScaleInH, hppd]
    constructor
    · unfold config_props
      rw [hsel]
      show Except.bind _ _ = _
      simp only [Except.bind]
      simp only [hw, hh]
    · unfold config_props
      rw [hsel]

theorem C6_witness :
    (config_props "RiftDK2" "default" 3 cfgStereoFwd 8 4 24 2 2 (fun _ => 0)
        (initialState cfgStereoFwd)).bind
      (config_props "RiftDK2" "default" 3 cfgStereoFwd 8 4 24 2 2 (fun _ => 0)) =
      config_props "RiftDK2" "default" 3 cfgStereoFwd 8 4 24 2 2 (fun _ => 0)
        (initialState cfgStereoFwd) ∧
    config_props "RiftDK2" "default" 3 cfgStereoFwd 8 4 24 2 2 (fun _ => 0)
        { initialState cfgStereoFwd with inv_cache := some [] } =
      config_props "RiftDK2" "default" 3 cfgStereoFwd 8 4 24 2 2 (fun _ => 0)
        (initialState cfgStereoFwd) :=
  C6_amended "RiftDK2" "default" 3 cfgStereoFwd 8 4 24 2 2 (fun _ => 0)
    (initialState cfgStereoFwd) (some []) rfl

/-! ### Cache-table invariants -/

theorem foldlPreserve {α β : Type _} (P : α → Prop) (f : α → β → α) :
    ∀ (l : List β) (a : α), (∀ b ∈ l, ∀ x, P x → P (f x b)) → P a → P (l.foldl f a) := by
  intro l
  induction l with
  | nil => intro a _ ha; exact ha
  | cons b l ih =>
    intro a hf ha
    exact ih (f a b) (fun c hc x hx => hf c (List.mem_cons_of_mem _ hc) x hx)
      (hf b (List.mem_cons_self _ _) a ha)

/-- Extraction of a successfully stored entry: the stored offset is
`srci*in_linesize + (in_eye*wpe + srcj)*3 + channel` with the bounds the
guard checked. -/
theorem storeEntry_some (inH in_linesize wpe in_eye channel : ℕ) (x y : ℚ) (v : ℤ)
    (hv : storeEntry inH in_linesize wpe in_eye channel x y = some v) :
    ∃ srci srcj : ℤ,
      v = srci * in_linesize + (((in_eye * wpe : ℕ) : ℤ) + srcj) * 3 + channel ∧
      0 ≤ srci ∧ srci < inH ∧ 0 ≤ srcj ∧ srcj < wpe := by
  unfold storeEntry at hv
  dsimp only at hv
  split at hv
  · rename_i hguard
    obtain ⟨h1, h2, h3, h4⟩ := hguard
    exact ⟨truncC y, truncC x, (Option.some.injEq _ _ ▸ hv).symm, h1, h3, h2, h4⟩
  · exact absurd hv (by simp)

theorem inEye_le_one (cfg : EyeCfg) (eye : ℕ) (heye : eye ≤ 1) :
    inEye cfg eye ≤ 1 := by
  unfold inEye
  split_ifs <;> omega

/-- With at most two input eyes, the eye base column plus one eye width
never exceeds the input width. -/
theorem inEye_wpe_le (cfg : EyeCfg) (inW eye : ℕ) (heye : eye ≤ 1) :
    inEye cfg eye * inWidthPerEye cfg inW + inWidthPerEye cfg inW ≤ inW := by
  unfold inEye inWidthPerEye
  split_ifs with hm hs
  · simp
  · interval_cases eye <;> simp <;> omega
  · interval_cases eye <;> simp <;> omega

/-- A successfully stored cache entry is a valid in-frame byte offset:
nonnegative, below `inH*in_linesize`, and of the form `srci*stride + q`
with the source row in `[0, inH)` and the in-row byte `q` in
`[0, 3*inW)`. -/
theorem storeEntry_bounds (inW inH in_linesize wpe in_eye channel : ℕ) (x y : ℚ)
    (v : ℤ) (hq : in_eye * wpe + wpe ≤ inW) (hch : channel ≤ 2)
    (hls : 3 * inW ≤ in_linesize)
    (hv : storeEntry inH in_linesize wpe in_eye channel x y = some v) :
    0 ≤ v ∧ v < (inH : ℤ) * in_linesize ∧
      ∃ srci q : ℤ, v = srci * in_linesize + q ∧ 0 ≤ srci ∧ srci < inH ∧
        0 ≤ q ∧ q < 3 * inW := by
  obtain ⟨srci, srcj, hform, ha1, ha2, hb1, hb2⟩ :=
    storeEntry_some inH in_linesize wpe in_eye channel x y v hv
  have hqz : ((in_eye * wpe + wpe : ℕ) : ℤ) ≤ (inW : ℤ) := by exact_mod_cast hq
  have hlsz : ((3 * inW : ℕ) : ℤ) ≤ (in_linesize : ℤ) := by exact_mod_cast hls
  have hchz : (channel : ℤ) ≤ 2 := by exact_mod_cast hch
  push_cast at hlsz
  set q : ℤ := (((in_eye * wpe : ℕ) : ℤ) + srcj) * 3 + channel with hqdef
  have hq0 : 0 ≤ q := by
    have : (0 : ℤ) ≤ ((in_eye * wpe : ℕ) : ℤ) := Int.natCast_nonneg _
    positivity
  have hcol : ((in_eye * wpe : ℕ) : ℤ) + srcj < (inW : ℤ) := by
    push_cast
    push_cast at hqz
    linarith
  have hq3 : q < 3 * inW := by
    rw [hqdef]
    linarith
  have hql : q < in_linesize := by linarith
  have hls0 : (0 : ℤ) ≤ (in_linesize : ℤ) := Int.natCast_nonneg _
  have hform2 : v = srci * (in_linesize : ℤ) + q := by rw [hform, hqdef]; ring
  refine ⟨?_, ?_, srci, q, hform2, ha1, ha2, hq0, hq3⟩
  · rw [hform2]
    have : 0 ≤ srci * in_linesize := mul_nonneg ha1 hls0
    linarith
  · rw [hform2]
    have hstep : srci * in_linesize + q < (srci + 1) * in_linesize := by
      have : (srci + 1) * in_linesize = srci * in_linesize + in_linesize := by ring
      linarith [this]
    have hmul : (srci + 1) * in_linesize ≤ (inH : ℤ) * in_linesize :=
      mul_le_mul_of_nonneg_right (by linarith) hls0
    linarith

/-- Lifting `storeEntry_bounds` to `cacheEntry`: whichever warp direction
computed the source coordinates, a stored entry is a valid in-frame
offset. -/
theorem cacheEntry_bounds (P : DeviceParams) (cfg : EyeCfg)
    (inW inH in_linesize outW outH : ℕ) (sqrtA : ℚ → ℚ) (eye i j channel : ℕ)
    (heye : eye ≤ 1) (hch : channel ≤ 2) (hls : 3 * inW ≤ in_linesize) (v : ℤ)
    (hv : cacheEntry P cfg inW inH in_linesize outW outH sqrtA eye i j channel = some v) :
    0 ≤ v ∧ v < (inH : ℤ) * in_linesize ∧
      ∃ srci q : ℤ, v = srci * in_linesize + q ∧ 0 ≤ srci ∧ srci < inH ∧
        0 ≤ q ∧ q < 3 * inW := by
  have hq := inEye_wpe_le cfg inW eye heye
  unfold cacheEntry at hv
  dsimp only at hv
  split at hv
  · exact storeEntry_bounds inW inH in_linesize _ _ channel _ _ v hq hch hls hv
  · exact storeEntry_bounds inW inH in_linesize _ _ channel _ _ v hq hch hls hv

theorem eyeList_le_one (cfg : EyeCfg) (eye : ℕ) (h : eye ∈ eyeList cfg) : eye ≤ 1 := by
  unfold eyeList at h
  split_ifs at h <;> simp at h <;> omega

/-- Fold invariant of the cache builder: the built table has exactly
`outW*outH*3` entries, and every entry either is the sentinel or was
produced by `cacheEntry` for some eye in `{0, 1}` and channel in
`{0, 1, 2}`. -/
theorem buildCache_invariant (P : DeviceParams) (cfg : EyeCfg)
    (inW inH in_linesize outW outH : ℕ) (sqrtA : ℚ → ℚ)
    (Q : ℤ → Prop) (hminus : Q (-1))
    (hentry : ∀ eye i j channel v, eye ≤ 1 → channel ≤ 2 →
      cacheEntry P cfg inW inH in_linesize outW outH sqrtA eye i j channel = some v →
      Q v) :
    (buildCache P cfg inW inH in_linesize outW outH sqrtA).length = outW * outH * 3 ∧
    ∀ e ∈ buildCache P cfg inW inH in_linesize outW outH sqrtA, Q e := by
  unfold buildCache
  dsimp only
  refine foldlPreserve (fun l : List ℤ => l.length = outW * outH * 3 ∧ ∀ e ∈ l, Q e) _ _ _ ?_ ?_
  · intro eye heye acc hacc
    refine foldlPreserve (fun l : List ℤ => l.length = outW * outH * 3 ∧ ∀ e ∈ l, Q e) _ _ _ ?_ hacc
    intro i _ acc2 hacc2
    refine foldlPreserve (fun l : List ℤ => l.length = outW * outH * 3 ∧ ∀ e ∈ l, Q e) _ _ _ ?_ hacc2
    intro j _ acc3 hacc3
    refine foldlPreserve (fun l : List ℤ => l.length = outW * outH * 3 ∧ ∀ e ∈ l, Q e) _ _ _ ?_ hacc3
    intro ch hchmem acc4 hacc4
    cases hce : cacheEntry P cfg inW inH in_linesize outW outH sqrtA eye i j ch with
    | none => exact hacc4
    | some v =>
      constructor
      · rw [List.length_set]
        exact hacc4.1
      · intro e he
        rcases List.mem_or_eq_of_mem_set he with h | h
        · exact hacc4.2 e h
        · rw [h]
          exact hentry eye i j ch v (eyeList_le_one cfg eye heye)
            (by have := List.mem_range.mp hchmem; omega) hce
  · constructor
    · exact List.length_replicate _ _
    · intro e he
      rw [List.eq_of_mem_replicate he]
      exact hminus

/-- Every entry of the built cache table is the sentinel `-1` or a valid
in-frame source offset, and the table has exactly `outW*outH*3` entries. -/
theorem buildCache_entries (P : DeviceParams) (cfg : EyeCfg)
    (inW inH in_linesize outW outH : ℕ) (sqrtA : ℚ → ℚ)
    (hls : 3 * inW ≤ in_linesize) :
    (buildCache P cfg inW inH in_linesize outW outH sqrtA).length = outW * outH * 3 ∧
    ∀ e ∈ buildCache P cfg inW inH in_linesize outW outH sqrtA,
      e = -1 ∨ (0 ≤ e ∧ e < (inH : ℤ) * in_linesize ∧
        ∃ srci q : ℤ, e = srci * in_linesize + q ∧ 0 ≤ srci ∧ srci < inH ∧
          0 ≤ q ∧ q < 3 * inW) := by
  exact buildCache_invariant P cfg inW inH in_linesize outW outH sqrtA _ (Or.inl rfl)
    (fun eye i j channel v heye hch hce =>
      Or.inr (cacheEntry_bounds P cfg inW inH in_linesize outW outH sqrtA eye i j channel
        heye hch hls v hce))

/-- Position arithmetic of the resampler: destination content byte
`(i, jj)` sits at buffer position `i*out_linesize + jj` (the destination
row stride is added once per row by the walking pointer), and it is
computed from cache index `i*(outW*3) + jj` (the cache itself is laid out
contiguously, without the destination stride). -/
theorem filter_frame_getD (cache : List ℤ) (src : List ℕ) (outW outH oLs : ℕ)
    (hoLs : outW * 3 ≤ oLs) (i jj : ℕ) (hi : i < outH) (hjj : jj < outW * 3) :
    (filter_frame cache src outW outH oLs).getD (i * oLs + jj) none =
      some (if cache.getD (i * (outW * 3) + jj) (-1) = -1 then 0
        else src.getD (cache.getD (i * (outW * 3) + jj) (-1)).toNat 0) := by
  have hjo : jj < oLs := lt_of_lt_of_le hjj hoLs
  have ho : 0 < oLs := lt_of_le_of_lt (Nat.zero_le _) hjo
  have hp : i * oLs + jj < outH * oLs := by
    calc i * oLs + jj < i * oLs + oLs := by omega
      _ = (i + 1) * oLs := by ring
      _ ≤ outH * oLs := Nat.mul_le_mul_right _ (by omega)
  unfold filter_frame
  rw [List.getD_eq_getElem?_getD, List.getElem?_map, List.getElem?_range hp]
  have hdiv : (i * oLs + jj) / oLs = i := by
    rw [Nat.mul_comm i oLs, Nat.mul_add_div ho, Nat.div_eq_of_lt hjo, Nat.add_zero]
  have hmod : (i * oLs + jj) % oLs = jj := by
    rw [Nat.mul_comm i oLs, Nat.mul_add_mod, Nat.mod_eq_of_lt hjo]
  simp only [Option.map_some', Option.getD_some]
  rw [hmod, hdiv, if_pos hjj]

/-! ### C4: cache entries under `mono_input` -/

/-- C4 counterexample: a forward-warp, mono-input configuration (RiftDK1
SDK 0.2.5c, input 8x4 with stride 24, output 4x2, swap off) stores for
destination eye 1, row 1, column 1, channel 1 the offset
`2*24 + (0*8 + 4)*3 + 1`, whose source column index 4 is not strictly less
than half the input width `8/2 = 4`: under `mono_input` the single source
eye spans the full input width, not its first half. -/
theorem C4_cx :
    cacheEntry devRiftDK1_025c cfgMonoFwd 8 4 24 4 2 (fun _ => 0) 1 1 1 1 =
      some (2 * 24 + (0 * 8 + 4) * 3 + 1) ∧ ¬((4 : ℕ) < 8 / 2) := by
  constructor
  · norm_num [cacheEntry, storeEntry, devRiftDK1_025c, cfgMonoFwd, oneEyeMultiplier,
      inWidthPerEye, inEye, lensCenterXOffsetEye, effScaleInW, effScaleInH,
      TanEyeAngleScaleX, TanEyeAngleScaleY, forwardChannelScale, chromaPair,
      DistortionFnScaleRadiusSquared, truncC]
  · omega

/-- C4 (amended): with `mono_input = 1`, each cache entry is independent of
the `swap_eyes` setting (the input eye is forced to 0), and every
non-sentinel entry references the single full-width source region: it has
the form `srci*stride + srcj*3 + channel` with source column
`srcj ∈ [0, input_width)` and source row `srci ∈ [0, input_height)` — the
full input width, not the first half-width region. -/
theorem C4_amended (P : DeviceParams) (fwd swap1 swap2 leo : Bool)
    (sw sh siw sih ppd : ℚ) (inW inH in_linesize outW outH : ℕ) (sqrtA : ℚ → ℚ)
    (eye i j channel : ℕ) :
    cacheEntry P ⟨fwd, swap1, true, leo, sw, sh, siw, sih, ppd⟩
        inW inH in_linesize outW outH sqrtA eye i j channel =
      cacheEntry P ⟨fwd, swap2, true, leo, sw, sh, siw, sih, ppd⟩
        inW inH in_linesize outW outH sqrtA eye i j channel ∧
    (∀ v : ℤ, cacheEntry P ⟨fwd, swap1, true, leo, sw, sh, siw, sih, ppd⟩
        inW inH in_linesize outW outH sqrtA eye i j channel = some v →
      ∃ srci srcj : ℤ, v = srci * in_linesize + srcj * 3 + channel ∧
        0 ≤ srcj ∧ srcj < inW ∧ 0 ≤ srci ∧ srci < inH) := by
  constructor
  · rfl
  · intro v hv
    unfold cacheEntry at hv
    dsimp only at hv
    split at hv <;>
    · obtain ⟨srci, srcj, hform, h1, h2, h3, h4⟩ := storeEntry_some _ _ _ _ _ _ _ _ hv
      refine ⟨srci, srcj, ?_, h3, ?_, h1, h2⟩
      · rw [hform]
        norm_num [inEye]
      · simpa [inWidthPerEye] using h4

/-! ### C5: what a cache entry stores and how the resampler applies it -/

/-- C5 counterexample: a forward-warp stereo configuration (RiftDK1 SDK
0.2.5c, input 8x4 with stride 24, output 2x2) stores for destination eye 0,
row 1, column 0, channel 1 the offset `2*24 + 1 = 49`, which is not an
intra-row content offset (it is not below `3*input_width = 24`): the source
row term `srci*stride` is baked into the cache at build time. -/
theorem C5_cx :
    cacheEntry devRiftDK1_025c cfgStereoFwd 8 4 24 2 2 (fun _ => 0) 0 1 0 1 =
      some (2 * 24 + (0 * 4 + 0) * 3 + 1) ∧ ¬((2 * 24 + (0 * 4 + 0) * 3 + 1 : ℤ) < 3 * 8) := by
  constructor
  · norm_num [cacheEntry, storeEntry, devRiftDK1_025c, cfgStereoFwd, cfgMonoFwd,
      oneEyeMultiplier, inWidthPerEye, inEye, lensCenterXOffsetEye, effScaleInW,
      effScaleInH, TanEyeAngleScaleX, TanEyeAngleScaleY, forwardChannelScale,
      chromaPair, DistortionFnScaleRadiusSquared, truncC]
  · norm_num

/-- C5 (amended): each non-sentinel cache entry stores a full source byte
offset with the source row-stride term baked in at build time — it
decomposes as `srci*source_stride + intra` with `intra ∈ [0, stride)` and
`srci ∈ [0, input_height)` the source row; what the resampler adds once per
row during application is the destination row stride: destination content
byte `(i, jj)` is written at buffer position `i*out_linesize + jj` from the
contiguous cache index `i*(outW*3) + jj`. -/
theorem C5_amended (P : DeviceParams) (cfg : EyeCfg)
    (inW inH in_linesize outW outH : ℕ) (sqrtA : ℚ → ℚ)
    (eye i j channel : ℕ) (heye : eye ≤ 1) (hch : channel ≤ 2)
    (hls : 3 * inW ≤ in_linesize) :
    (∀ v : ℤ, cacheEntry P cfg inW inH in_linesize outW outH sqrtA eye i j channel =
        some v →
      ∃ srci intra : ℤ, v = srci * in_linesize + intra ∧ 0 ≤ intra ∧
        intra < in_linesize ∧ 0 ≤ srci ∧ srci < inH) ∧
    (∀ (cache : List ℤ) (src : List ℕ) (oLs : ℕ), outW * 3 ≤ oLs →
      ∀ r jj, r < outH → jj < outW * 3 →
      (filter_frame cache src outW outH oLs).getD (r * oLs + jj) none =
        some (if cache.getD (r * (outW * 3) + jj) (-1) = -1 then 0
          else src.getD (cache.getD (r * (outW * 3) + jj) (-1)).toNat 0)) := by
  constructor
  · intro v hv
    obtain ⟨h0, h1, srci, q, hform, h2, h3, h4, h5⟩ :=
      cacheEntry_bounds P cfg inW inH in_linesize outW outH sqrtA eye i j channel
        heye hch hls v hv
    exact ⟨srci, q, hform, h4, by linarith [Int.ofNat_le.mpr hls], h2, h3⟩
  · intro cache src oLs hoLs r jj hr hjj
    exact filter_frame_getD cache src outW outH oLs hoLs r jj hr hjj

/-! ### C9: cache safety and resampler totality -/

/-- C9: after cache building, the table has exactly `outW*outH*3` entries,
each of which is the sentinel `-1` or a byte offset inside the source frame
(row in `[0, input_height)`, in-row byte in `[0, 3*input_width)`, hence
below `input_height*stride`); consequently for every destination content
byte the resampler produces a defined value — 0 for sentinel entries, a
byte read from a valid index of the source buffer otherwise — and never
indexes the source buffer out of bounds. -/
theorem C9_cache_safety (P : DeviceParams) (cfg : EyeCfg)
    (inW inH in_linesize outW outH oLs : ℕ) (sqrtA : ℚ → ℚ)
    (hls : 3 * inW ≤ in_linesize) (hoLs : outW * 3 ≤ oLs) :
    (buildCache P cfg inW inH in_linesize outW outH sqrtA).length = outW * outH * 3 ∧
    (∀ e ∈ buildCache P cfg inW inH in_linesize outW outH sqrtA,
      e = -1 ∨ (0 ≤ e ∧ e < (inH : ℤ) * in_linesize ∧
        ∃ srci q : ℤ, e = srci * in_linesize + q ∧ 0 ≤ srci ∧ srci < inH ∧
          0 ≤ q ∧ q < 3 * inW)) ∧
    (∀ src : List ℕ, src.length = inH * in_linesize →
      ∀ i jj, i < outH → jj < outW * 3 →
      ∃ b : ℕ,
        (filter_frame (buildCache P cfg inW inH in_linesize outW outH sqrtA) src
          outW outH oLs).getD (i * oLs + jj) none = some b ∧
        (((buildCache P cfg inW inH in_linesize outW outH sqrtA).getD
            (i * (outW * 3) + jj) (-1) = -1 ∧ b = 0) ∨
         (∃ k : ℕ, k < src.length ∧
            ((buildCache P cfg inW inH in_linesize outW outH sqrtA).getD
              (i * (outW * 3) + jj) (-1)).toNat = k ∧ b = src.getD k 0))) := by
  obtain ⟨hlen, hmem⟩ :=
    buildCache_entries P cfg inW inH in_linesize outW outH sqrtA hls
  refine ⟨hlen, hmem, ?_⟩
  intro src hsrc i jj hi hjj
  have hidx : i * (outW * 3) + jj < outW * outH * 3 := by
    calc i * (outW * 3) + jj < i * (outW * 3) + outW * 3 := by omega
      _ = (i + 1) * (outW * 3) := by ring
      _ ≤ outH * (outW * 3) := Nat.mul_le_mul_right _ (by omega)
      _ = outW * outH * 3 := by ring
  have hmemidx :
      (buildCache P cfg inW inH in_linesize outW outH sqrtA).getD
        (i * (outW * 3) + jj) (-1) ∈
        buildCache P cfg inW inH in_linesize outW outH sqrtA := by
    rw [List.getD_eq_getElem _ _ (by rw [hlen]; exact hidx)]
    exact List.getElem_mem _
  refine ⟨_, filter_frame_getD _ src outW outH oLs hoLs i jj hi hjj, ?_⟩
  rcases hmem _ hmemidx with hsent | ⟨he0, he1, _⟩
  · exact Or.inl ⟨hsent, if_pos hsent⟩
  · right
    refine ⟨((buildCache P cfg inW inH in_linesize outW outH sqrtA).getD
      (i * (outW * 3) + jj) (-1)).toNat, ?_, rfl, ?_⟩
    · rw [hsrc]
      have : ((buildCache P cfg inW inH in_linesize outW outH sqrtA).getD
          (i * (outW * 3) + jj) (-1)) < ((inH * in_linesize : ℕ) : ℤ) := by
        push_cast
        exact he1
      omega
    · have hne : (buildCache P cfg inW inH in_linesize outW outH sqrtA).getD
          (i * (outW * 3) + jj) (-1) ≠ -1 := by
        intro hcontra
        rw [hcontra] at he0
        norm_num at he0
      rw [if_neg hne]

/-! ### Witness instantiations -/

/-- A reverse-direction configuration with a nonzero `ppd`. -/
def cfgPpdRev : EyeCfg :=
  { forward_warp := false
    swap_eyes := false
    mono_input := false
    left_eye_only := false
    scale_width := 1
    scale_height := 1
    scale_in_width := 1
    scale_in_height := 1
    ppd := 1 }

theorem C8_witness :
    ∃ e : String,
      init_dict "RiftDK2" "default" 3 cfgPpdRev.ppd cfgPpdRev.forward_warp
        none none none none = .error e ∧
      initAndBuildCache "RiftDK2" "default" 3 cfgPpdRev none none none none
        8 4 24 4 2 (fun _ => 0) = .error e :=
  C8_ppd_rejected "RiftDK2" "default" 3 cfgPpdRev none none none none
    8 4 24 4 2 (fun _ => 0) (by simp [cfgPpdRev]) rfl

theorem C5_witness :
    (∀ v : ℤ, cacheEntry devRiftDK1_025c cfgStereoFwd 8 4 24 2 2 (fun _ => 0) 0 1 0 1 =
        some v →
      ∃ srci intra : ℤ, v = srci * (24 : ℕ) + intra ∧ 0 ≤ intra ∧
        intra < (24 : ℕ) ∧ 0 ≤ srci ∧ srci < (4 : ℕ)) ∧
    (∀ (cache : List ℤ) (src : List ℕ) (oLs : ℕ), 2 * 3 ≤ oLs →
      ∀ r jj, r < 2 → jj < 2 * 3 →
      (filter_frame cache src 2 2 oLs).getD (r * oLs + jj) none =
        some (if cache.getD (r * (2 * 3) + jj) (-1) = -1 then 0
          else src.getD (cache.getD (r * (2 * 3) + jj) (-1)).toNat 0)) :=
  C5_amended devRiftDK1_025c cfgStereoFwd 8 4 24 2 2 (fun _ => 0) 0 1 0 1
    (by decide) (by decide) (by decide)

theorem C9_witness :
    ∃ b : ℕ,
      (filter_frame (buildCache devRiftDK1_025c cfgStereoFwd 8 4 24 2 2 (fun _ => 0))
        (List.replicate 96 0) 2 2 6).getD (1 * 6 + 2) none = some b ∧
      (((buildCache devRiftDK1_025c cfgStereoFwd 8 4 24 2 2 (fun _ => 0)).getD
          (1 * (2 * 3) + 2) (-1) = -1 ∧ b = 0) ∨
       (∃ k : ℕ, k < (List.replicate 96 (0 : ℕ)).length ∧
          ((buildCache devRiftDK1_025c cfgStereoFwd 8 4 24 2 2 (fun _ => 0)).getD
            (1 * (2 * 3) + 2) (-1)).toNat = k ∧ b = (List.replicate 96 (0 : ℕ)).getD k 0)) :=
  (C9_cache_safety devRiftDK1_025c cfgStereoFwd 8 4 24 2 2 6 (fun _ => 0)
    (by decide) (by decide)).2.2 (List.replicate 96 0) (by decide) 1 2 (by decide) (by decide)

end UnwarpVR
